import Mathlib

set_option maxRecDepth 100000

/-!
Verification of the StressEase backend (Flask + Gemini + Firestore).

Shallow embedding of the Python sources:
  * `stressease/services/gemini_service.py` — generated-text validation;
  * `stressease/api/chat.py` — crisis detection, the crisis-confirmation
    state machine over the `active_chat_sessions` / `crisis_resources_offered`
    tables, and session teardown;
  * the daily-quiz validator and weekly DASS aggregation, which the
    specification describes but which are absent from the sources provided,
    are modelled from the spec (clearly marked below).

Strings are modelled as `List Char` internally (Python `str`); the sources
only use ASCII text, so ASCII lower-casing and ASCII `\w` word characters
are a faithful model of Python's `str.lower()` and `re`'s `\b` on these
inputs.  Apostrophes inside literals are produced by `withApos`, which
replaces the placeholder `~` with the apostrophe character (codepoint 39).
-/

namespace StressEase

/-! ## Character and string primitives -/

/-- The apostrophe character (codepoint 39). -/
def apos : Char := Char.ofNat 39

/-- Replace the placeholder `~` by an apostrophe, so that Python string
literals containing apostrophes can be transcribed exactly. -/
def withApos (s : String) : String :=
  ⟨s.data.map (fun c => if c == '~' then apos else c)⟩

/-- ASCII lower-casing of one character, the behaviour of Python's
`str.lower()` on the ASCII inputs used throughout the sources. -/
def lowerChar (c : Char) : Char :=
  if 'A' ≤ c && c ≤ 'Z' then Char.ofNat (c.toNat + 32) else c

/-- Lower-case a character list (Python `str.lower()`). -/
def lowerL (s : List Char) : List Char := s.map lowerChar

/-- ASCII whitespace, the characters stripped by Python `str.strip()` on the
inputs used here. -/
def isSpaceChar (c : Char) : Bool :=
  c == ' ' || c == '\t' || c == '\n' || c == '\r' || c == Char.ofNat 11 || c == Char.ofNat 12

/-- Python `str.strip()`: drop leading and trailing whitespace. -/
def trimL (s : List Char) : List Char :=
  ((s.dropWhile isSpaceChar).reverse.dropWhile isSpaceChar).reverse

/-- If `pat` is a prefix of `s`, return the remainder of `s`. -/
def dropPrefixL : List Char → List Char → Option (List Char)
  | [], s => some s
  | _ :: _, [] => none
  | p :: ps, c :: cs => if p == c then dropPrefixL ps cs else none

/-- Python substring containment `pat in s`. -/
def containsSub (pat : List Char) : List Char → Bool
  | [] => (dropPrefixL pat []).isSome
  | c :: cs => (dropPrefixL pat (c :: cs)).isSome || containsSub pat cs

/-- A word character in the sense of `re`'s `\w` (ASCII). -/
def isWordChar (c : Char) : Bool := c.isAlphanum || c == '_'

/-- `\b` holds between the previous character (none at start of string) and a
word character. -/
def prevBoundary : Option Char → Bool
  | none => true
  | some c => !isWordChar c

/-- `\b` holds between a word character and the following character (none at
end of string). -/
def nextBoundary : List Char → Bool
  | [] => true
  | c :: _ => !isWordChar c

/-- Does `\b pat \b` match exactly at the current position, given the
character just before the position?  (Every pattern in the sources starts and
ends with a word character, for which `\b` means exactly these boundary
conditions.) -/
def wbHere (pat : List Char) (prev : Option Char) (s : List Char) : Bool :=
  prevBoundary prev &&
    (match dropPrefixL pat s with
     | some rest => nextBoundary rest
     | none => false)

/-- Scan all positions of `s` for a `\b pat \b` match (the semantics of
`re.search` for these patterns). -/
def wbFrom (pat : List Char) : Option Char → List Char → Bool
  | prev, [] => wbHere pat prev []
  | prev, c :: cs => wbHere pat prev (c :: cs) || wbFrom pat (some c) cs

/-- `re.search(r'\b pat \b', s)` as a Boolean, for the literal phrases used in
the sources. -/
def wbMatch (pat : List Char) (s : List Char) : Bool := wbFrom pat none s

/-! ## `gemini_service.validate_gemini_response`

Transcribed from `stressease/services/gemini_service.py`, lines 44–82. -/

/-- `crisis_keywords` of `validate_gemini_response` (substring checks). -/
def gemini_crisis_keywords : List String :=
  ["suicide", "self-harm", "kill yourself", "end it all", "hurt myself", "die"]

/-- `diagnosis_patterns` of `validate_gemini_response` (substring checks). -/
def diagnosis_phrases : List String :=
  ["you have ", "you are suffering from", "you might have", "you probably have",
   "sounds like you have", "diagnosis", "diagnose", "condition is", "disorder",
   "i diagnose", "you exhibit symptoms of", "clinical depression", "clinical anxiety",
   "you are experiencing", "you are exhibiting", "pathological", "psychiatric condition"]

/-- `medication_patterns` of `validate_gemini_response` (substring checks). -/
def medication_phrases : List String :=
  ["you should take", "you need to take", "prescribe", "medication", "dosage",
   "you should try", "treatment plan", "medical treatment", "therapy regimen"]

/-- The crisis-redirect template returned when a crisis keyword is found. -/
def CRISIS_REDIRECT_TEMPLATE : String :=
  withApos "I notice you~re mentioning something serious. If you~re experiencing a crisis, please reach out to a professional immediately. The National Suicide Prevention Lifeline is available 24/7 at 988 or 1-800-273-8255. Would you like me to provide more resources that might help?"

/-- The diagnostic-boundary template returned when a diagnosis phrase is found. -/
def DIAGNOSIS_BOUNDARY_TEMPLATE : String :=
  withApos "I~m here to listen and support you, but I can~t provide medical diagnoses or clinical advice. Consider discussing your feelings with a healthcare professional who can provide personalized guidance. How else can I support you today?"

/-- The treatment-boundary template returned when a medication phrase is found. -/
def TREATMENT_BOUNDARY_TEMPLATE : String :=
  withApos "I~m here to provide emotional support, but I can~t recommend specific treatments or medications. A healthcare professional would be the best person to discuss treatment options with you. Is there something else on your mind that you~d like to talk about?"

/-- `if not response or len(response.strip()) == 0` — empty or whitespace-only. -/
def geminiBlank (response : String) : Bool := (trimL response.data).isEmpty

/-- Does the lower-cased response contain one of the crisis keywords? -/
def escalationHit (response : String) : Bool :=
  gemini_crisis_keywords.any (fun k => containsSub k.data (lowerL response.data))

/-- Does the lower-cased response contain one of the diagnosis phrases? -/
def diagnosisHit (response : String) : Bool :=
  diagnosis_phrases.any (fun k => containsSub k.data (lowerL response.data))

/-- Does the lower-cased response contain one of the medication phrases? -/
def medicationHit (response : String) : Bool :=
  medication_phrases.any (fun k => containsSub k.data (lowerL response.data))

/-- `validate_gemini_response` (gemini_service.py lines 44–82): `None` for
blank input, otherwise the first matching substitution template, otherwise
the response unchanged. -/
def validate_gemini_response (response : String) : Option String :=
  if geminiBlank response then none
  else if escalationHit response then some CRISIS_REDIRECT_TEMPLATE
  else if diagnosisHit response then some DIAGNOSIS_BOUNDARY_TEMPLATE
  else if medicationHit response then some TREATMENT_BOUNDARY_TEMPLATE
  else some response

/-- Fallback substituted by `generate_chat_response` when validation returns
`None` (gemini_service.py line 189). -/
def GENERATION_FALLBACK : String :=
  withApos "I~m sorry, I couldn~t generate a helpful response. How else can I support you today?"

/-- `generate_chat_response` (gemini_service.py lines 168–195), success path
of the external call: `raw` stands for `response.text`; the result is the
validated text, or the generic fallback when validation returns `None`. -/
def generate_chat_response (raw : String) : String :=
  match validate_gemini_response ⟨trimL raw.data⟩ with
  | none => GENERATION_FALLBACK
  | some v => v

/-! ## `chat.py` — risk detection

Transcribed from `stressease/api/chat.py`, lines 550–658. -/

/-- The three risk categories of `CRISIS_KEYWORDS` (`None` is represented by
`Option` in `detect_crisis_message`'s result). -/
inductive RiskCategory where
  | suicide
  | selfHarm
  | general
deriving DecidableEq, Repr

/-- `CRISIS_KEYWORDS['suicide']` — each entry is the literal phrase of a
`\b...\b` regex. -/
def suicide_phrases : List String :=
  ["suicide", "kill myself", "end my life", "want to die"]

/-- `CRISIS_KEYWORDS['self_harm']`. -/
def self_harm_phrases : List String :=
  ["harming myself", "self-harm", "self harm", "hurt myself"]

/-- `CRISIS_KEYWORDS['general']`. -/
def general_phrases : List String :=
  ["emergency", "help me", "hopeless", "no reason to live",
   withApos "can~t go on", "want to end it", "give up"]

/-- `CRISIS_KEYWORDS`, in declaration order. -/
def CRISIS_KEYWORDS : List (RiskCategory × List String) :=
  [(.suicide, suicide_phrases), (.selfHarm, self_harm_phrases), (.general, general_phrases)]

/-- Does any of the category's phrases match the lower-cased message with
word boundaries?  (The inner `for pattern in patterns` loop of
`detect_crisis_message`.) -/
def catHit (phrases : List String) (message : List Char) : Bool :=
  phrases.any (fun p => wbMatch p.data (lowerL message))

/-- `detect_crisis_message` (chat.py lines 621–639): lower-case the message,
try the categories in declaration order, first match wins; no match yields
`(False, None)`. -/
def detect_crisis_message (message : List Char) : Bool × Option RiskCategory :=
  match CRISIS_KEYWORDS.find? (fun cp => catHit cp.2 message) with
  | some cp => (true, some cp.1)
  | none => (false, none)

/-- `CRISIS_RESPONSES` (chat.py lines 604–619), the per-category supportive
templates (Python adjacent string literals concatenated). -/
def CRISIS_RESPONSES : RiskCategory → String
  | .suicide => withApos "I~m deeply concerned about what you~re sharing. Your life matters, and these feelings, while overwhelming, can be addressed with proper support. Please know that help is available, and many people have overcome similar feelings with professional assistance. Would you be willing to reach out to a Crisis helpline right now?"
  | .selfHarm => withApos "I understand you~re in a lot of pain right now. Self-harm is often a way to cope with emotional distress, but there are healthier alternatives that can help. Professional support can provide immediate relief and long-term strategies. Your wellbeing matters, and recovery is possible with the right help."
  | .general => withApos "I~m concerned about what you~re sharing and want you to know that support is available. While I~m here to listen, connecting with mental health professionals can provide the specialized help you deserve. You don~t have to face these feelings alone, and reaching out is a sign of strength, not weakness."

/-- `generate_crisis_response` (chat.py lines 641–658): template of the
detected category, `general` when none is detected. -/
def generate_crisis_response (message : List Char) : String :=
  match detect_crisis_message message with
  | (true, some c) => CRISIS_RESPONSES c
  | _ => CRISIS_RESPONSES .general

/-! ## `chat.py` — crisis contacts catalog (lines 662–717) -/

/-- One entry of the static `CRISIS_CONTACTS` catalog.  `ctype` transcribes
the `'type'` key. -/
structure CrisisContact where
  id : String
  ctype : String
  name : String
  number : Option String
  description : String
  website : Option String
  availability : String
  country : String
  priority : Nat
deriving DecidableEq, Repr

/-- The static `CRISIS_CONTACTS` list stored directly in chat.py. -/
def CRISIS_CONTACTS : List CrisisContact :=
  [{ id := "emergency_112", ctype := "emergency", name := "National Emergency Number",
     number := some "112",
     description := "National Emergency Number for immediate emergencies",
     website := none, availability := "24/7", country := "India", priority := 1 },
   { id := "aasra", ctype := "crisis_hotline", name := "AASRA",
     number := some "91-9820466726",
     description := "24/7 crisis support and suicide prevention",
     website := some "http://www.aasra.info/", availability := "24/7",
     country := "India", priority := 2 },
   { id := "vandrevala", ctype := "crisis_hotline", name := "Vandrevala Foundation",
     number := some "1860-2662-345 / 1800-2333-330",
     description := "24/7 helpline for mental health emergencies",
     website := some "https://www.vandrevalafoundation.com/", availability := "24/7",
     country := "India", priority := 3 },
   { id := "nimhans", ctype := "crisis_hotline", name := "NIMHANS Psychosocial Support Helpline",
     number := some "080-46110007",
     description := "Mental health support and counseling",
     website := some "https://nimhans.ac.in/", availability := "Business hours",
     country := "India", priority := 4 },
   { id := "icall", ctype := "crisis_hotline", name := "iCall Helpline",
     number := some "022-25521111",
     description := "Psychosocial helpline (Mon-Sat, 8 AM to 10 PM)",
     website := some "https://icallhelpline.org/",
     availability := "Mon-Sat, 8 AM to 10 PM", country := "India", priority := 5 }]

/-! ## `chat.py` — confirmation-intent classification

The word sets and precedence of `_handle_crisis_confirmation`
(chat.py lines 216–222). -/

/-- The affirmative alternation `\b(yes|sure|okay|ok|please|help|need)\b`. -/
def positive_words : List String :=
  ["yes", "sure", "okay", "ok", "please", "help", "need"]

/-- The negative alternation `\b(no|not|don\'t|dont|later|maybe)\b` — note
that the source includes both the apostrophised and the bare `dont`. -/
def negative_words : List String :=
  ["no", "not", withApos "don~t", "dont", "later", "maybe"]

/-- The three confirmation intents. -/
inductive Intent where
  | affirmative
  | negative
  | unclear
deriving DecidableEq, Repr

/-- Does any word of the set match the lower-cased reply with word
boundaries?  (`re.search` over the alternation.) -/
def wordSetHit (words : List String) (reply : List Char) : Bool :=
  words.any (fun w => wbMatch w.data (lowerL reply))

/-- The intent classification performed inline by
`_handle_crisis_confirmation`: the affirmative set is tested first, then the
negative set, otherwise the reply is unclear. -/
def classify_confirmation (reply : List Char) : Intent :=
  if wordSetHit positive_words reply then .affirmative
  else if wordSetHit negative_words reply then .negative
  else .unclear

/-- The classifier as the specification words it, for comparison with the
source: the negative word set is listed as {no, not, don't, later, maybe},
without the source's extra bare `dont`. -/
def spec_negative_words : List String :=
  ["no", "not", withApos "don~t", "later", "maybe"]

/-- The confirmation-intent classifier as described by the specification
(§4.2), to be compared with `classify_confirmation` from the source. -/
def classify_confirmation_as_specified (reply : List Char) : Intent :=
  if wordSetHit positive_words reply then .affirmative
  else if wordSetHit spec_negative_words reply then .negative
  else .unclear

/-! ## `chat.py` — the message endpoint and its state

`active_chat_sessions` is modelled by its key set (the dialogue handles are
opaque); `crisis_resources_offered` by an insertion-ordered association
list. -/

/-- The server-side mutable state shared by the chat handlers. -/
structure ServerState where
  active_chat_sessions : List String
  crisis_resources_offered : List (String × Bool)
deriving DecidableEq, Repr

/-- Python dict lookup `crisis_resources_offered[sid]`. -/
def lookupOffered (st : ServerState) (sid : String) : Option Bool :=
  (st.crisis_resources_offered.find? (fun p => p.1 == sid)).map (·.2)

/-- Python dict membership `sid in crisis_resources_offered`. -/
def memOffered (st : ServerState) (sid : String) : Bool :=
  (lookupOffered st sid).isSome

/-- Python dict assignment `crisis_resources_offered[sid] = b`. -/
def setOffered (st : ServerState) (sid : String) (b : Bool) : ServerState :=
  { st with crisis_resources_offered :=
      if memOffered st sid then
        st.crisis_resources_offered.map (fun p => if p.1 == sid then (p.1, b) else p)
      else st.crisis_resources_offered ++ [(sid, b)] }

/-- Python truthiness of the `session_id` payload field (`None` and the empty
string are falsy). -/
def sessionTruthy : Option String → Bool
  | none => false
  | some s => !s.isEmpty

/-- `session_id in crisis_resources_offered` for the optional payload field
(`None` is never a key). -/
def optMemOffered (st : ServerState) : Option String → Bool
  | none => false
  | some s => memOffered st s

/-- The structured content of the JSON replies of the message endpoint that
the claims are about (HTTP statuses in comments). -/
inductive ChatResponse where
  /-- 400 "Message cannot be empty". -/
  | invalidMessage
  /-- 400 "Message must be 1000 characters or less". -/
  | messageTooLong
  /-- 201 with `crisis_detected`, `confirmation_required` — the crisis offer. -/
  | crisisOffer (session_id : String) (ai : String) (category : Option RiskCategory)
  /-- 500 "Session creation failed" from `_handle_crisis_message`. -/
  | sessionCreationFailed
  /-- 201 with `show_resources` and the `crisis_resources` catalog. -/
  | resourceReveal (session_id : String) (ai : String) (resources : List CrisisContact)
  /-- 201 asking again, `confirmation_required` — the unclear branch. -/
  | clarify (session_id : String) (ai : String)
  /-- 404 "Chat session has expired or does not exist". -/
  | sessionExpired
  /-- 201 with the normal AI reply. -/
  | normalReply (session_id : String) (ai : String)
deriving DecidableEq, Repr

/-- `_get_or_create_session` (chat.py lines 294–320): falsy id ⇒ allocate
`newId` (the fresh `uuid4`) and register a new dialogue handle; known id ⇒
return it; unknown id ⇒ `(None, None)`. -/
def get_or_create_session (st : ServerState) (newId : String) :
    Option String → Option String × ServerState
  | sid =>
    if !sessionTruthy sid then
      (some newId, { st with active_chat_sessions := st.active_chat_sessions ++ [newId] })
    else
      let s := sid.getD ""
      if st.active_chat_sessions.contains s then (some s, st) else (none, st)

/-- `_handle_crisis_message` (chat.py lines 156–201): crisis template,
session get-or-create (500 on failure), mark the offer pending
(`crisis_resources_offered[sid] = False`). -/
def handle_crisis_message (st : ServerState) (newId : String) (user_message : List Char)
    (session_id : Option String) (category : Option RiskCategory) :
    ChatResponse × ServerState :=
  let ai := generate_crisis_response user_message
  match get_or_create_session st newId session_id with
  | (none, st1) => (.sessionCreationFailed, st1)
  | (some sid, st1) => (.crisisOffer sid ai category, setOffered st1 sid false)

/-- Reply of the affirmative confirmation branch (chat.py line 223). -/
def AFFIRMATIVE_REVEAL_TEXT : String :=
  withApos "I~m glad you~re open to resources. Here are some contacts that can provide immediate support."

/-- Reply of the negative confirmation branch (chat.py line 248). -/
def NEGATIVE_REVEAL_TEXT : String :=
  "I understand you may not want resources right now, but I care about your wellbeing. Here are the support contacts in case you need them later."

/-- Reply of the unclear confirmation branch (chat.py line 273). -/
def CLARIFY_TEXT : String :=
  "I want to make sure I understand - would you like me to share some emergency contact information that might be helpful?"

/-- `_handle_crisis_confirmation` (chat.py lines 204–291): affirmative and
negative intents reveal the full `CRISIS_CONTACTS` catalog and set the
session's flag to `True`; an unclear reply only asks again and leaves the
flag `False`. -/
def handle_crisis_confirmation (st : ServerState) (user_message : List Char)
    (sid : String) : ChatResponse × ServerState :=
  match classify_confirmation user_message with
  | .affirmative => (.resourceReveal sid AFFIRMATIVE_REVEAL_TEXT CRISIS_CONTACTS, setOffered st sid true)
  | .negative => (.resourceReveal sid NEGATIVE_REVEAL_TEXT CRISIS_CONTACTS, setOffered st sid true)
  | .unclear => (.clarify sid CLARIFY_TEXT, st)

/-- Fallback substituted by `send_chat_message` when
`validate_gemini_response(ai_response)` is falsy (chat.py line 130). -/
def APOLOGY_FALLBACK : String :=
  withApos "I apologize, but I~m having trouble generating a proper response right now. Could you please rephrase your message?"

/-- Python truthiness of `validate_gemini_response(...)` (`None` and the
empty string are falsy). -/
def validationTruthy : Option String → Bool
  | none => false
  | some s => !s.isEmpty

/-- `send_chat_message` (chat.py lines 57–153).  `newId` stands for the fresh
`uuid4` drawn on session creation and `rawAi` for the text produced by the
external generative collaborator on the normal branch.  The branches, in
source order: input validation; the crisis branch when risk is detected and
the session has no `crisis_resources_offered` entry; the confirmation branch
when the session's entry is `False`; otherwise the normal branch. -/
def send_chat_message (st : ServerState) (newId : String) (rawAi : String)
    (message : String) (session_id : Option String) : ChatResponse × ServerState :=
  let user_message := trimL message.data
  if user_message.isEmpty then (.invalidMessage, st)
  else if 1000 < user_message.length then (.messageTooLong, st)
  else
    let ic := detect_crisis_message user_message
    if ic.1 && (!sessionTruthy session_id || !optMemOffered st session_id) then
      handle_crisis_message st newId user_message session_id ic.2
    else if (match session_id with
             | some s => lookupOffered st s == some false
             | none => false) then
      handle_crisis_confirmation st user_message (session_id.getD "")
    else
      match get_or_create_session st newId session_id with
      | (some sid, st1) =>
        let ai_response := generate_chat_response rawAi
        let ai_final :=
          if validationTruthy (validate_gemini_response ai_response) then ai_response
          else APOLOGY_FALLBACK
        (.normalReply sid ai_final, st1)
      | (none, st1) => (.sessionExpired, st1)

/-! ## `chat.py` — the end-session endpoint (lines 373–431) -/

/-- Outcome of `end_chat_session`. -/
inductive EndSessionResult where
  /-- 400 "session_id is required". -/
  | missingSessionId
  /-- 200 "Session ended successfully" with the cleanup count. -/
  | ok (cleanup_count : Nat)
  /-- 500 "Failed to end session" — the handler's `except` branch. -/
  | serverError
deriving DecidableEq, Repr

/-- `end_chat_session` (chat.py lines 373–431).  After removing the active
session, the source executes `del Crisis_resources_offered[session_id]`
under `if session_id in crisis_resources_offered:`; the capitalised name is
defined nowhere, so that branch raises `NameError`, which the surrounding
`except` turns into the 500 error response — with the active-session deletion
already applied and the `crisis_resources_offered` entry left in place. -/
def end_chat_session (st : ServerState) (session_id : String) : EndSessionResult × ServerState :=
  let sid : String := ⟨trimL session_id.data⟩
  if sid.data.isEmpty then (.missingSessionId, st)
  else
    let inActive := st.active_chat_sessions.contains sid
    let st1 : ServerState :=
      if inActive then
        { st with active_chat_sessions := st.active_chat_sessions.filter (fun s => !(s == sid)) }
      else st
    let cleanup_count : Nat := if inActive then 1 else 0
    if memOffered st1 sid then (.serverError, st1)
    else (.ok cleanup_count, st1)

/-! ## Daily quiz validation and weekly DASS aggregation

The specification (§4.6, §4.7) describes a structured daily-quiz endpoint
and a weekly aggregation trigger.  The sources provided contain only the
free-form `quiz_answers` version of `mood.py`; the structured validator and
the aggregation trigger are not present in them, so they are modelled from
the specification below. -/

/-- Minimal JSON value model for the daily-quiz payload. -/
inductive JVal where
  | jnull
  | jint (n : Int)
  | jstr (s : String)
  | jbool (b : Bool)
  | jarr (xs : List JVal)
  | jobj (fields : List (String × JVal))

/-- Lookup of a key in a JSON object's field list. -/
def jget (fields : List (String × JVal)) (k : String) : Option JVal :=
  (fields.find? (fun p => p.1 == k)).map (·.2)

/-- The three sub-objects a daily-quiz validation error can name. -/
inductive QuizPart where
  | core_scores
  | rotating_scores
  | dass_today
deriving DecidableEq, Repr

/-- The four core scores (each validated to lie in 1–5). -/
structure CoreScores where
  mood : Int
  energy : Int
  sleep : Int
  stress : Int
deriving DecidableEq, Repr

/-- The three DASS self-report scores (each validated to lie in 1–5). -/
structure DassScores where
  depression : Int
  anxiety : Int
  stress : Int
deriving DecidableEq, Repr

/-- A validated daily-quiz payload. -/
structure ValidatedQuiz where
  core : CoreScores
  domain_name : String
  rotating : List Int
  dass : DassScores
deriving DecidableEq, Repr

/-- An integer JSON value in the 1–5 range. -/
def jintInRange : JVal → Bool
  | .jint n => 1 ≤ n && n ≤ 5
  | _ => false

/-- Modelled from the spec: §4.6 `core_scores` check — exactly the keys
mood/energy/sleep/stress, each an integer in 1–5 (absent from the sources
provided). -/
def validateCore : JVal → Option CoreScores
  | .jobj fs =>
    if fs.length == 4 then
      match jget fs "mood", jget fs "energy", jget fs "sleep", jget fs "stress" with
      | some (.jint a), some (.jint b), some (.jint c), some (.jint d) =>
        if (1 ≤ a && a ≤ 5) && (1 ≤ b && b ≤ 5) && (1 ≤ c && c ≤ 5) && (1 ≤ d && d ≤ 5) then
          some ⟨a, b, c, d⟩
        else none
      | _, _, _, _ => none
    else none
  | _ => none

/-- Modelled from the spec: §4.6 `rotating_scores` check — a `domain_name`
string plus exactly 5 integers in 1–5 (absent from the sources provided). -/
def validateRotating : JVal → Option (String × List Int)
  | .jobj fs =>
    if fs.length == 2 then
      match jget fs "domain_name", jget fs "scores" with
      | some (.jstr dn), some (.jarr xs) =>
        if xs.length == 5 && xs.all jintInRange then
          some (dn, xs.filterMap (fun v => match v with | .jint n => some n | _ => none))
        else none
      | _, _ => none
    else none
  | _ => none

/-- Modelled from the spec: §4.6 `dass_today` check — exactly the keys
depression/anxiety/stress, each an integer in 1–5 (absent from the sources
provided). -/
def validateDass : JVal → Option DassScores
  | .jobj fs =>
    if fs.length == 3 then
      match jget fs "depression", jget fs "anxiety", jget fs "stress" with
      | some (.jint a), some (.jint b), some (.jint c) =>
        if (1 ≤ a && a ≤ 5) && (1 ≤ b && b ≤ 5) && (1 ≤ c && c ≤ 5) then
          some ⟨a, b, c⟩
        else none
      | _, _, _ => none
    else none
  | _ => none

/-- Modelled from the spec: the §4.6 daily-quiz validator — requires the
three sub-objects and fails with an error naming the first offending
sub-object (the daily-quiz endpoint is absent from the sources provided). -/
def validate_daily_quiz (payload : JVal) : Except QuizPart ValidatedQuiz :=
  match payload with
  | .jobj fs =>
    match validateCore ((jget fs "core_scores").getD .jnull) with
    | none => .error .core_scores
    | some core =>
      match validateRotating ((jget fs "rotating_scores").getD .jnull) with
      | none => .error .rotating_scores
      | some dr =>
        match validateDass ((jget fs "dass_today").getD .jnull) with
        | none => .error .dass_today
        | some dass => .ok ⟨core, dr.1, dr.2, dass⟩
  | _ => .error .core_scores

/-- One persisted daily entry, as far as the weekly trigger needs it: the
raw 1–5 DASS scores and the entry's associated day. -/
structure DailyEntry where
  dass : DassScores
  day : Nat
deriving DecidableEq, Repr

/-- A persisted weekly aggregation record, keyed by its window. -/
structure WeeklyTotals where
  week_start : Nat
  week_end : Nat
  depression_total : Int
  anxiety_total : Int
  stress_total : Int
deriving DecidableEq, Repr

/-- One user's slice of the datastore: daily entries (most recent first, the
order the trigger fetches them in) and the weekly records. -/
structure DassStore where
  entries : List DailyEntry
  weekly : List WeeklyTotals
deriving DecidableEq, Repr

/-- Modelled from the spec: the fixed §4.7 rescale mapping
{1→0, 2→1, 3→1, 4→2, 5→3} (absent from the sources provided). -/
def rescale_1_5 (n : Int) : Int :=
  if n = 1 then 0
  else if n = 2 then 1
  else if n = 3 then 1
  else if n = 4 then 2
  else if n = 5 then 3
  else 0

/-- Modelled from the spec: §4.7 step (d) — rescale the 7 raw scores of one
sub-scale, sum them, multiply by 2 (absent from the sources provided). -/
def dass_week_total (raw : List Int) : Int :=
  2 * (raw.map rescale_1_5).sum

/-- Modelled from the spec: §4.7 step (e) — the weekly record of a 7-entry
block, window bounds the min/max of the entries' days (absent from the
sources provided). -/
def mkWeekly (block : List DailyEntry) : WeeklyTotals :=
  let days := block.map (·.day)
  { week_start := days.foldr Nat.min (days.headD 0)
    week_end := days.foldr Nat.max (days.headD 0)
    depression_total := dass_week_total (block.map (·.dass.depression))
    anxiety_total := dass_week_total (block.map (·.dass.anxiety))
    stress_total := dass_week_total (block.map (·.dass.stress)) }

/-- Modelled from the spec: the §4.7 weekly-aggregation trigger, invoked on
each successful daily persist — if the new total count `n` satisfies
`7 ≤ n` and `n % 7 = 0`, aggregate the most recent 7 entries into one new
weekly record, skipping silently if fewer than 7 are returned or a record
for the same (week_start, week_end) window already exists (absent from the
sources provided; the store is one user's slice, so the window key stands
for the spec's (user, week_start, week_end) triple). -/
def weekly_after (st : DassStore) (e : DailyEntry) : List WeeklyTotals :=
  let entries := e :: st.entries
  let n := entries.length
  if 7 ≤ n ∧ n % 7 = 0 then
    let block := entries.take 7
    if block.length < 7 then st.weekly
    else
      let w := mkWeekly block
      if st.weekly.any (fun x => x.week_start == w.week_start && x.week_end == w.week_end) then
        st.weekly
      else st.weekly ++ [w]
  else st.weekly

/-- Modelled from the spec: the daily persist followed by the §4.7 trigger —
the entry is always prepended; the weekly records are extended exactly when
`weekly_after` appends a block. -/
def log_daily_entry (st : DassStore) (e : DailyEntry) : DassStore :=
  { entries := e :: st.entries, weekly := weekly_after st e }

/-- One user's persisted daily-quiz log. -/
structure QuizStore where
  logs : List ValidatedQuiz
deriving DecidableEq, Repr

/-- Modelled from the spec: the daily-quiz submission — a validation error is
reported to the caller naming the offending sub-object and nothing is
persisted; a valid payload is appended to the log (the daily-quiz endpoint is
absent from the sources provided). -/
def submit_daily_quiz (st : QuizStore) (payload : JVal) : Except QuizPart Unit × QuizStore :=
  match validate_daily_quiz payload with
  | .error e => (.error e, st)
  | .ok v => (.ok (), { st with logs := st.logs ++ [v] })

/-- A well-formed daily-quiz payload (example input). -/
def examplePayload : JVal :=
  .jobj [("core_scores", .jobj [("mood", .jint 3), ("energy", .jint 4), ("sleep", .jint 2), ("stress", .jint 5)]),
         ("rotating_scores", .jobj [("domain_name", .jstr "focus"),
            ("scores", .jarr [.jint 1, .jint 2, .jint 3, .jint 4, .jint 5])]),
         ("dass_today", .jobj [("depression", .jint 1), ("anxiety", .jint 2), ("stress", .jint 3)])]

/-- `examplePayload` with the `core_scores` sub-object missing. -/
def payloadMissingCore : JVal :=
  .jobj [("rotating_scores", .jobj [("domain_name", .jstr "focus"),
            ("scores", .jarr [.jint 1, .jint 2, .jint 3, .jint 4, .jint 5])]),
         ("dass_today", .jobj [("depression", .jint 1), ("anxiety", .jint 2), ("stress", .jint 3)])]

/-- `examplePayload` with an out-of-range `dass_today.anxiety` value of 6. -/
def payloadBadDass : JVal :=
  .jobj [("core_scores", .jobj [("mood", .jint 3), ("energy", .jint 4), ("sleep", .jint 2), ("stress", .jint 5)]),
         ("rotating_scores", .jobj [("domain_name", .jstr "focus"),
            ("scores", .jarr [.jint 1, .jint 2, .jint 3, .jint 4, .jint 5])]),
         ("dass_today", .jobj [("depression", .jint 1), ("anxiety", .jint 6), ("stress", .jint 3)])]

/-- `examplePayload` with only 4 rotating scores (wrong arity). -/
def payloadBadArity : JVal :=
  .jobj [("core_scores", .jobj [("mood", .jint 3), ("energy", .jint 4), ("sleep", .jint 2), ("stress", .jint 5)]),
         ("rotating_scores", .jobj [("domain_name", .jstr "focus"),
            ("scores", .jarr [.jint 1, .jint 2, .jint 3, .jint 4])]),
         ("dass_today", .jobj [("depression", .jint 1), ("anxiety", .jint 2), ("stress", .jint 3)])]

/-- `examplePayload` with a non-integer `core_scores.mood`. -/
def payloadNonIntCore : JVal :=
  .jobj [("core_scores", .jobj [("mood", .jstr "three"), ("energy", .jint 4), ("sleep", .jint 2), ("stress", .jint 5)]),
         ("rotating_scores", .jobj [("domain_name", .jstr "focus"),
            ("scores", .jarr [.jint 1, .jint 2, .jint 3, .jint 4, .jint 5])]),
         ("dass_today", .jobj [("depression", .jint 1), ("anxiety", .jint 2), ("stress", .jint 3)])]

/-- Six seed entries for the weekly-aggregation examples (most recent
first). -/
def sixSeed : List DailyEntry :=
  [⟨⟨2, 2, 2⟩, 6⟩, ⟨⟨1, 1, 1⟩, 5⟩, ⟨⟨5, 5, 5⟩, 4⟩,
   ⟨⟨4, 4, 4⟩, 3⟩, ⟨⟨3, 3, 3⟩, 2⟩, ⟨⟨2, 2, 2⟩, 1⟩]

/-! # Theorems about the claims -/

/-- Claim C7: the risk detector lower-cases its input and tests the
categories in declaration order suicide, self_harm, general as word-boundary
patterns; the first matching category wins — in particular a message with a
suicide-category phrase yields `(true, suicide)` even when the other
categories' phrases co-occur — and a message matching no pattern yields
`(false, none)`. -/
theorem detect_crisis_precedence_spec (msg : List Char) :
    (catHit suicide_phrases msg = true →
       detect_crisis_message msg = (true, some RiskCategory.suicide))
  ∧ (catHit suicide_phrases msg = false → catHit self_harm_phrases msg = true →
       detect_crisis_message msg = (true, some RiskCategory.selfHarm))
  ∧ (catHit suicide_phrases msg = false → catHit self_harm_phrases msg = false →
       catHit general_phrases msg = true →
       detect_crisis_message msg = (true, some RiskCategory.general))
  ∧ (catHit suicide_phrases msg = false → catHit self_harm_phrases msg = false →
       catHit general_phrases msg = false →
       detect_crisis_message msg = (false, none)) := by
  refine ⟨fun h1 => ?_, fun h1 h2 => ?_, fun h1 h2 h3 => ?_, fun h1 h2 h3 => ?_⟩
  · simp [detect_crisis_message, CRISIS_KEYWORDS, List.find?, h1]
  · simp [detect_crisis_message, CRISIS_KEYWORDS, List.find?, h1, h2]
  · simp [detect_crisis_message, CRISIS_KEYWORDS, List.find?, h1, h2, h3]
  · simp [detect_crisis_message, CRISIS_KEYWORDS, List.find?, h1, h2, h3]

/-- Witness for C7: a message carrying phrases of all three categories is
classified as suicide. -/
theorem detect_crisis_precedence_spec_witness :
    catHit suicide_phrases "I want to die, hurt myself and give up".data = true ∧
    detect_crisis_message "I want to die, hurt myself and give up".data
      = (true, some RiskCategory.suicide) :=
  ⟨by decide,
   (detect_crisis_precedence_spec "I want to die, hurt myself and give up".data).1 (by decide)⟩

/-- Claim C8, counterexample: the source's negative alternation also contains
the bare word `dont`, so the reply "dont" is classified negative by the code
while the classifier described by the claim (negative set
{no, not, don't, later, maybe}) leaves it unclear. -/
theorem classify_confirmation_dont_counterexample :
    classify_confirmation "dont".data = Intent.negative ∧
    classify_confirmation_as_specified "dont".data = Intent.unclear := by
  decide

/-- Claim C8 as amended: the classifier lower-cases the reply, tests the
affirmative set {yes, sure, okay, ok, please, help, need} before the negative
set {no, not, don't, dont, later, maybe} (the source also accepts the bare
`dont`), both as word-boundary patterns; affirmative wins when both sets
match, neither matching yields unclear, and "maybe later, not sure"
deterministically classifies affirmative (its word "sure" is in the
affirmative set). -/
theorem classify_confirmation_spec (reply : List Char) :
    (wordSetHit positive_words reply = true →
       classify_confirmation reply = Intent.affirmative)
  ∧ (wordSetHit positive_words reply = false → wordSetHit negative_words reply = true →
       classify_confirmation reply = Intent.negative)
  ∧ (wordSetHit positive_words reply = false → wordSetHit negative_words reply = false →
       classify_confirmation reply = Intent.unclear)
  ∧ classify_confirmation "maybe later, not sure".data = Intent.affirmative := by
  refine ⟨fun h1 => ?_, fun h1 h2 => ?_, fun h1 h2 => ?_, by decide⟩
  · simp [classify_confirmation, h1]
  · simp [classify_confirmation, h1, h2]
  · simp [classify_confirmation, h1, h2]

/-- Witness for C8: "yes please" matches the affirmative set and is
classified affirmative. -/
theorem classify_confirmation_spec_witness :
    wordSetHit positive_words "yes please".data = true ∧
    classify_confirmation "yes please".data = Intent.affirmative :=
  ⟨by decide, (classify_confirmation_spec "yes please".data).1 (by decide)⟩

/-- Claim C9: the generated-text validator substitutes the redirect template
for replies containing an escalation phrase, the diagnostic-boundary template
for (remaining) replies containing a diagnosis phrase — in particular for the
reply "you have generalized anxiety disorder" — the treatment-boundary
template for (remaining) replies containing a medication phrase, returns
other non-blank text unchanged, and returns nothing on blank input, in which
case the calling `generate_chat_response` substitutes the generic
fallback. -/
theorem validate_gemini_response_spec (s : String) :
    (geminiBlank s = true →
       validate_gemini_response s = none ∧ generate_chat_response s = GENERATION_FALLBACK)
  ∧ (geminiBlank s = false → escalationHit s = true →
       validate_gemini_response s = some CRISIS_REDIRECT_TEMPLATE)
  ∧ (geminiBlank s = false → escalationHit s = false → diagnosisHit s = true →
       validate_gemini_response s = some DIAGNOSIS_BOUNDARY_TEMPLATE)
  ∧ (geminiBlank s = false → escalationHit s = false → diagnosisHit s = false →
       medicationHit s = true →
       validate_gemini_response s = some TREATMENT_BOUNDARY_TEMPLATE)
  ∧ (geminiBlank s = false → escalationHit s = false → diagnosisHit s = false →
       medicationHit s = false → validate_gemini_response s = some s)
  ∧ validate_gemini_response "you have generalized anxiety disorder"
      = some DIAGNOSIS_BOUNDARY_TEMPLATE := by
  refine ⟨fun h0 => ⟨?_, ?_⟩, fun h0 h1 => ?_, fun h0 h1 h2 => ?_,
          fun h0 h1 h2 h3 => ?_, fun h0 h1 h2 h3 => ?_, by decide⟩
  · simp [validate_gemini_response, h0]
  · have ht : trimL s.data = [] := by
      simpa [geminiBlank, List.isEmpty_iff] using h0
    simp [generate_chat_response, ht]
    decide
  · simp [validate_gemini_response, h0, h1]
  · simp [validate_gemini_response, h0, h1, h2]
  · simp [validate_gemini_response, h0, h1, h2, h3]
  · simp [validate_gemini_response, h0, h1, h2, h3]

/-- Witness for C9: a reply recommending medication is replaced by the
treatment-boundary template. -/
theorem validate_gemini_response_spec_witness :
    medicationHit "you should take medication" = true ∧
    validate_gemini_response "you should take medication"
      = some TREATMENT_BOUNDARY_TEMPLATE :=
  ⟨by decide,
   (validate_gemini_response_spec "you should take medication").2.2.2.1
     (by decide) (by decide) (by decide) (by decide)⟩

/-- Claim C10: the generated-text validator is idempotent — applying it to
its own output returns that output: each substitution template re-triggers
its own phrase check and maps to itself, passing text maps to itself, and the
blank-input result is preserved. -/
theorem validate_gemini_response_idempotent (s : String) :
    (validate_gemini_response s).bind validate_gemini_response
      = validate_gemini_response s := by
  have key : ∀ t, validate_gemini_response s = some t →
      validate_gemini_response t = some t := by
    intro t h
    unfold validate_gemini_response at h
    split_ifs at h with h1 h2 h3 h4
    · try simp only [Option.some.injEq] at h
      subst h; decide
    · try simp only [Option.some.injEq] at h
      subst h; decide
    · try simp only [Option.some.injEq] at h
      subst h; decide
    · try simp only [Option.some.injEq] at h
      subst h
      unfold validate_gemini_response
      rw [if_neg h1, if_neg h2, if_neg h3, if_neg h4]
  cases hv : validate_gemini_response s with
  | none => simp
  | some t => simp [key t hv]

/-- Claim C6 (the code bug): ending a session whose id has a
`crisis_resources_offered` entry hits the undefined name
`Crisis_resources_offered`, so the endpoint answers with the 500 error and
leaves the crisis entry in place (with the active-session deletion already
applied); a session with only an active dialogue handle is cleaned up with
count 1 as the claim describes. -/
theorem end_session_crisis_flag_server_error :
    end_chat_session ⟨["s1"], [("s1", true)]⟩ "s1"
      = (.serverError, ⟨[], [("s1", true)]⟩) ∧
    end_chat_session ⟨["s1"], []⟩ "s1" = (.ok 1, ⟨[], []⟩) := by
  decide

/-- Claim C1, counterexample: with session "s1" pending
(`crisis_resources_offered["s1"] = False`), the unclear reply "hmm." yields
the clarification prompt, no resource catalog, and the session stays pending
— not the resource-reveal-and-resolve the claim asserts for all intents. -/
theorem crisis_confirmation_unclear_counterexample :
    send_chat_message ⟨["s1"], [("s1", false)]⟩ "n" "x" "hmm." (some "s1")
      = (.clarify "s1" CLARIFY_TEXT, ⟨["s1"], [("s1", false)]⟩) := by
  decide

/-- Claim C1 as amended: for a session in offered_pending_confirmation, any
valid inbound message is treated as the confirmation reply and its intent is
classified; affirmative and negative intents each emit a resource-reveal
reply with the full static contact catalog and mark the session resolved,
while an unclear intent emits the clarification prompt and leaves the session
pending. -/
theorem crisis_confirmation_state_machine (st : ServerState)
    (sid newId rawAi message : String)
    (hne : (trimL message.data).isEmpty = false)
    (hlen : (trimL message.data).length ≤ 1000)
    (hpend : lookupOffered st sid = some false)
    (hsid : sid.isEmpty = false) :
    send_chat_message st newId rawAi message (some sid) =
      match classify_confirmation (trimL message.data) with
      | .affirmative =>
          (.resourceReveal sid AFFIRMATIVE_REVEAL_TEXT CRISIS_CONTACTS, setOffered st sid true)
      | .negative =>
          (.resourceReveal sid NEGATIVE_REVEAL_TEXT CRISIS_CONTACTS, setOffered st sid true)
      | .unclear => (.clarify sid CLARIFY_TEXT, st) := by
  have hlen' : ¬ (1000 < (trimL message.data).length) := by omega
  have hc1 : ((detect_crisis_message (trimL message.data)).1 &&
      (!sessionTruthy (some sid) || !optMemOffered st (some sid))) = false := by
    simp [sessionTruthy, optMemOffered, memOffered, hpend, hsid]
  rcases hcl : classify_confirmation (trimL message.data) with _ | _ | _ <;>
    simp [send_chat_message, hne, hlen', hc1, hpend, handle_crisis_confirmation, hcl]

/-- Witness for C1: an affirmative reply to a pending crisis offer reveals
the catalog and resolves the session. -/
theorem crisis_confirmation_state_machine_witness :
    send_chat_message ⟨["s1"], [("s1", false)]⟩ "n" "x" "yes please" (some "s1")
      = (.resourceReveal "s1" AFFIRMATIVE_REVEAL_TEXT CRISIS_CONTACTS,
         ⟨["s1"], [("s1", true)]⟩) := by
  have h := crisis_confirmation_state_machine ⟨["s1"], [("s1", false)]⟩ "s1" "n" "x"
      "yes please" (by decide) (by decide) (by decide) (by decide)
  rw [h]
  decide

/-- Claim C3, counterexample: session "s1" is resolved
(`crisis_resources_offered["s1"] = True`); the risk-flagged message
"i want to die" is nevertheless handled as a normal chat message — no new
crisis offer is emitted and the session does not re-enter pending, so
resolved does not behave like not_offered. -/
theorem resolved_session_reoffer_counterexample :
    send_chat_message ⟨["s1"], [("s1", true)]⟩ "n" "ok then" "i want to die" (some "s1")
      = (.normalReply "s1" "ok then", ⟨["s1"], [("s1", true)]⟩) ∧
    (detect_crisis_message (trimL "i want to die".data)).1 = true := by
  decide

/-- Claim C3 as amended: once a session's crisis offer is resolved
(`crisis_resources_offered[sid] = True`), every valid subsequent message —
risk-flagged or not — takes the normal-AI branch, the server state is
unchanged, and the session never re-enters offered_pending_confirmation. -/
theorem resolved_session_normal_flow (st : ServerState)
    (sid newId rawAi message : String)
    (hne : (trimL message.data).isEmpty = false)
    (hlen : (trimL message.data).length ≤ 1000)
    (hres : lookupOffered st sid = some true)
    (hact : sid ∈ st.active_chat_sessions)
    (hsid : sid.isEmpty = false) :
    send_chat_message st newId rawAi message (some sid) =
      (.normalReply sid
        (if validationTruthy (validate_gemini_response (generate_chat_response rawAi))
         then generate_chat_response rawAi else APOLOGY_FALLBACK), st) := by
  have hlen' : ¬ (1000 < (trimL message.data).length) := by omega
  simp [send_chat_message, hne, hlen', hres, get_or_create_session,
        sessionTruthy, optMemOffered, memOffered, hsid, hact]

/-- Witness for C3: with "s1" resolved, the risk-flagged message
"i want to die" gets the (validated) normal AI reply. -/
theorem resolved_session_normal_flow_witness :
    send_chat_message ⟨["s1"], [("s1", true)]⟩ "n" "all good" "i want to die" (some "s1")
      = (.normalReply "s1" "all good", ⟨["s1"], [("s1", true)]⟩) := by
  have h := resolved_session_normal_flow ⟨["s1"], [("s1", true)]⟩ "s1" "n" "all good"
      "i want to die" (by decide) (by decide) (by decide) (by decide) (by decide)
  rw [h]
  decide

/-- Claim C5, counterexample: an untracked session id with a risk-flagged
message is answered with the 500 "Session creation failed" error of
`_handle_crisis_message`, not the 404 session-expired error the claim
asserts for all messages. -/
theorem unknown_session_crisis_counterexample :
    send_chat_message ⟨[], []⟩ "n" "x" "i want to die" (some "abc")
      = (.sessionCreationFailed, ⟨[], []⟩) ∧
    ChatResponse.sessionCreationFailed ≠ ChatResponse.sessionExpired := by
  decide

/-- Claim C5 as amended: a supplied non-empty session id tracked nowhere on
the server is never silently recreated and always yields an error with the
state unchanged — the 404 session-expired error when the message is not
risk-flagged, but the 500 session-creation-failed error when it is. -/
theorem unknown_session_error_spec (st : ServerState)
    (sid newId rawAi message : String)
    (hne : (trimL message.data).isEmpty = false)
    (hlen : (trimL message.data).length ≤ 1000)
    (hact : sid ∉ st.active_chat_sessions)
    (hmem : memOffered st sid = false)
    (hsid : sid.isEmpty = false) :
    send_chat_message st newId rawAi message (some sid) =
      ((if (detect_crisis_message (trimL message.data)).1 then
          ChatResponse.sessionCreationFailed
        else ChatResponse.sessionExpired), st) := by
  have hlk : lookupOffered st sid = none := by
    cases hl : lookupOffered st sid with
    | none => rfl
    | some b => simp [memOffered, hl] at hmem
  have hlen' : ¬ (1000 < (trimL message.data).length) := by omega
  by_cases hic : (detect_crisis_message (trimL message.data)).1 = true
  · simp [send_chat_message, hne, hlen', hic, handle_crisis_message,
          get_or_create_session, sessionTruthy, hsid, hact, optMemOffered,
          memOffered, hlk]
  · have hic' : (detect_crisis_message (trimL message.data)).1 = false := by
      simpa using hic
    simp [send_chat_message, hne, hlen', hic', hlk, get_or_create_session,
          sessionTruthy, hsid, hact]

/-- Witness for C5: a non-risk message on an unknown id gets the 404
session-expired error. -/
theorem unknown_session_error_spec_witness :
    send_chat_message ⟨[], []⟩ "n" "x" "hello" (some "abc")
      = (ChatResponse.sessionExpired, ⟨[], []⟩) := by
  have h := unknown_session_error_spec ⟨[], []⟩ "abc" "n" "x" "hello"
      (by decide) (by decide) (by decide) (by decide) (by decide)
  rw [h]
  decide

/-- Claim C2 (modelled from the spec): a submission bringing the entry count
to a positive multiple of 7 triggers exactly one aggregation of the most
recent 7 entries — each sub-scale's 7 raw scores rescaled via
{1→0, 2→1, 3→1, 4→2, 5→3}, summed and doubled, so [1,2,3,4,5,1,2] totals
16 — while a count that is not a multiple of 7 triggers none and a window
already covered is left as is. -/
theorem weekly_aggregation_spec :
    dass_week_total [1, 2, 3, 4, 5, 1, 2] = 16
  ∧ (∀ block : List DailyEntry,
       (mkWeekly block).depression_total
         = 2 * ((block.map (fun e => e.dass.depression)).map rescale_1_5).sum
     ∧ (mkWeekly block).anxiety_total
         = 2 * ((block.map (fun e => e.dass.anxiety)).map rescale_1_5).sum
     ∧ (mkWeekly block).stress_total
         = 2 * ((block.map (fun e => e.dass.stress)).map rescale_1_5).sum)
  ∧ (∀ (st : DassStore) (e : DailyEntry),
       ¬(7 ≤ st.entries.length + 1 ∧ (st.entries.length + 1) % 7 = 0) →
       (log_daily_entry st e).weekly = st.weekly)
  ∧ (∀ (st : DassStore) (e : DailyEntry),
       7 ≤ st.entries.length + 1 → (st.entries.length + 1) % 7 = 0 →
       (st.weekly.any (fun x =>
          x.week_start == (mkWeekly ((e :: st.entries).take 7)).week_start &&
          x.week_end == (mkWeekly ((e :: st.entries).take 7)).week_end)) = false →
       (log_daily_entry st e).weekly = st.weekly ++ [mkWeekly ((e :: st.entries).take 7)])
  ∧ (∀ (st : DassStore) (e : DailyEntry),
       (st.weekly.any (fun x =>
          x.week_start == (mkWeekly ((e :: st.entries).take 7)).week_start &&
          x.week_end == (mkWeekly ((e :: st.entries).take 7)).week_end)) = true →
       (log_daily_entry st e).weekly = st.weekly) := by
  refine ⟨by decide, fun block => ⟨rfl, rfl, rfl⟩, ?_, ?_, ?_⟩
  · intro st e h
    have h' : ¬(7 ≤ (e :: st.entries).length ∧ (e :: st.entries).length % 7 = 0) := by
      simpa using h
    show weekly_after st e = st.weekly
    simp only [weekly_after]
    rw [if_neg h']
  · intro st e h1 h2 hcov
    have h' : 7 ≤ (e :: st.entries).length ∧ (e :: st.entries).length % 7 = 0 := by
      constructor
      · simpa using h1
      · simpa using h2
    have hb : ¬ ((e :: st.entries).take 7).length < 7 := by
      simp only [List.length_take, List.length_cons]
      omega
    show weekly_after st e = _
    simp only [weekly_after]
    rw [if_pos h', if_neg hb, if_neg (by simpa using hcov)]
  · intro st e hcov
    show weekly_after st e = st.weekly
    simp only [weekly_after]
    by_cases h' : 7 ≤ (e :: st.entries).length ∧ (e :: st.entries).length % 7 = 0
    · rw [if_pos h']
      by_cases hb : ((e :: st.entries).take 7).length < 7
      · rw [if_pos hb]
      · rw [if_neg hb, if_pos (by simpa using hcov)]
    · rw [if_neg h']

/-- Witness for C2: the first submission (count 1) triggers nothing; the
seventh (count 7) appends exactly one weekly record. -/
theorem weekly_aggregation_spec_witness :
    (log_daily_entry ⟨[], []⟩ ⟨⟨1, 1, 1⟩, 1⟩).weekly = [] ∧
    (log_daily_entry ⟨sixSeed, []⟩ ⟨⟨1, 1, 1⟩, 7⟩).weekly
      = [] ++ [mkWeekly (((⟨⟨1, 1, 1⟩, 7⟩ : DailyEntry) :: sixSeed).take 7)] :=
  ⟨weekly_aggregation_spec.2.2.1 ⟨[], []⟩ ⟨⟨1, 1, 1⟩, 1⟩ (by decide),
   weekly_aggregation_spec.2.2.2.1 ⟨sixSeed, []⟩ ⟨⟨1, 1, 1⟩, 7⟩
     (by decide) (by decide) (by decide)⟩

/-- Claim C4 (modelled from the spec): the daily-quiz validator accepts
exactly the three well-shaped sub-objects; a missing key, wrong arity,
non-integer or out-of-range value fails with an error naming the offending
sub-object, and a failed validation persists nothing. -/
theorem daily_quiz_validation_spec :
    (∀ (st : QuizStore) (p : JVal) (e : QuizPart),
       validate_daily_quiz p = .error e → submit_daily_quiz st p = (.error e, st))
  ∧ validate_daily_quiz examplePayload
      = .ok ⟨⟨3, 4, 2, 5⟩, "focus", [1, 2, 3, 4, 5], ⟨1, 2, 3⟩⟩
  ∧ validate_daily_quiz payloadMissingCore = .error .core_scores
  ∧ validate_daily_quiz payloadBadDass = .error .dass_today
  ∧ validate_daily_quiz payloadBadArity = .error .rotating_scores
  ∧ validate_daily_quiz payloadNonIntCore = .error .core_scores := by
  refine ⟨fun st p e h => ?_, by rfl, by rfl, by rfl, by rfl, by rfl⟩
  simp [submit_daily_quiz, h]

/-- Witness for C4: submitting the payload with a missing `core_scores`
sub-object reports the core_scores error and leaves the store unchanged. -/
theorem daily_quiz_validation_spec_witness :
    submit_daily_quiz ⟨[]⟩ payloadMissingCore = (.error .core_scores, ⟨[]⟩) :=
  daily_quiz_validation_spec.1 ⟨[]⟩ payloadMissingCore .core_scores (by rfl)

end StressEase
